import Mathlib

/-!
Shallow embedding of the EfficientIP SOLIDserver provider for external-dns
(`provider/efficientip/efficientip.go`) and proofs about its observable
behaviour.

The provider is a thin adapter over the SOLIDserver REST client:
`Zones` lists and filters DNS zones, `Records` turns each zone's resource
records into normalized endpoints (merging multi-value "A" records),
and `ApplyChanges` replays a batch of create/delete/update operations,
one appliance call per target value.

Modelling conventions:
* the REST client (`sdsclient`) is external; its calls are modelled by an
  environment `Env` giving the zone-list response and, per zone id, the
  record-list response.  A response carries the `success` flag of the
  appliance payload and the string of `err.Error()` (empty = no error),
  which is exactly what the Go code inspects;
* `endpoint.DomainFilter.Match` and `provider.ZoneIDFilter.Match` are
  external library code, modelled as abstract `String → Bool` functions;
* `endpoint.NewEndpointWithTTL` is modelled as a plain constructor (the
  external-dns library's own normalizations are outside this repository);
* the Go `Host` map holding deduplicated "A" endpoints is modelled as an
  association list in insertion order, a deterministic refinement of Go's
  unordered map iteration (no claim here depends on flush order);
* write-path appliance calls are recorded as a trace of `ApiCall` values;
  the appliance's reply to each call is an oracle `ApiCall → String`
  giving the `err.Error()` string, read by the Go code only for logging,
  which we model in a `LogEntry` trace.
-/

namespace Efficientip

/-- One DNS zone as returned by the appliance zone list
(`eip.DnsZoneDataData`, fields read by the provider). -/
structure DnsZoneDataData where
  zoneName : String
  zoneType : String
  zoneId : String
deriving DecidableEq, Repr

/-- The appliance zone-list reply: the payload `success` flag, the zone
data, and the string `err.Error()` (empty when no transport error). -/
structure ZoneListResult where
  success : Bool
  data : List DnsZoneDataData
  errMsg : String
deriving DecidableEq, Repr

/-- One resource record as returned by the appliance record list
(`eip.DnsRrDataData`, fields read by the provider). -/
structure RrData where
  rrFullName : String
  rrType : String
  rrTtl : String
  rrAllValue : String
deriving DecidableEq, Repr

/-- The appliance record-list reply for one zone. -/
structure RrListResult where
  success : Bool
  data : List RrData
  errMsg : String
deriving DecidableEq, Repr

/-- The read-path environment: results of the two list calls issued through
`p.client.DnsApi`.  `dnsRrList` is keyed by the zone id used in the
`Where("zone_id=" + zone.ID)` clause. -/
structure Env where
  dnsZoneList : ZoneListResult
  dnsRrList : String → RrListResult

/-- The provider configuration the exported methods read
(`EfficientIPProvider`): the two filters and the dry-run flag. -/
structure Provider where
  domainFilter : String → Bool
  zoneIDFilter : String → Bool
  dryRun : Bool

/-- `ZoneAuth` struct of the provider. -/
structure ZoneAuth where
  name : String
  type : String
  id : String
deriving DecidableEq, Repr

/-- `NewZoneAuth`: copies the three zone fields. -/
def NewZoneAuth (zone : DnsZoneDataData) : ZoneAuth :=
  { name := zone.zoneName, type := zone.zoneType, id := zone.zoneId }

/-- The external-dns `endpoint.Endpoint` fields used by the provider. -/
structure Endpoint where
  dnsName : String
  recordType : String
  recordTTL : Int
  targets : List String
deriving DecidableEq, Repr

/-- `endpoint.RecordTypeA`. -/
def RecordTypeA : String := "A"

/-- `endpoint.RecordTypeTXT`. -/
def RecordTypeTXT : String := "TXT"

/-- `endpoint.NewEndpointWithTTL` with a single target, as the provider
always calls it. -/
def NewEndpointWithTTL (dnsName recordType : String) (ttl : Int) (target : String) : Endpoint :=
  { dnsName := dnsName, recordType := recordType, recordTTL := ttl, targets := [target] }

/-- The condition under which the provider treats a zone-list reply as
failed: `err.Error() != "" && !zones.GetSuccess()`. -/
def zoneListFailed (r : ZoneListResult) : Prop :=
  r.errMsg ≠ "" ∧ r.success = false

instance (r : ZoneListResult) : Decidable (zoneListFailed r) := by
  unfold zoneListFailed; infer_instance

/-- The condition under which the provider treats a record-list reply as
failed: `err.Error() != "" && !records.GetSuccess()`. -/
def rrListFailed (r : RrListResult) : Prop :=
  r.errMsg ≠ "" ∧ r.success = false

instance (r : RrListResult) : Decidable (rrListFailed r) := by
  unfold rrListFailed; infer_instance

/-- The zone loop of `Zones`: skip a zone failing the domain filter, skip a
zone failing the zone-ID filter, keep the rest as `ZoneAuth`. -/
def zonesLoop (p : Provider) : List DnsZoneDataData → List ZoneAuth
  | [] => []
  | zone :: rest =>
    if p.domainFilter zone.zoneName = false then zonesLoop p rest
    else if p.zoneIDFilter zone.zoneId = false then zonesLoop p rest
    else NewZoneAuth zone :: zonesLoop p rest

/-- `Zones`: fetch the zone list; on failure return the error, otherwise
filter the zones. -/
def Zones (p : Provider) (env : Env) : Except String (List ZoneAuth) :=
  let zones := env.dnsZoneList
  if zoneListFailed zones then Except.error zones.errMsg
  else Except.ok (zonesLoop p zones.data)

/-- Digits of a decimal numeral folded into a `Nat`
(the digit-accumulation core of Go `strconv.Atoi`). -/
def digitsToNat (cs : List Char) : Nat :=
  cs.foldl (fun acc c => acc * 10 + (c.toNat - 48)) 0

/-- Go `strconv.Atoi` success: an optional sign followed by a nonempty run
of decimal digits parses to the signed value, anything else is a parse
error (`none`).  Overflow of the machine `int` is not modelled: the TTL
strings the appliance serves fit. -/
def parseGoInt (s : String) : Option Int :=
  match s.data with
  | [] => none
  | c :: rest =>
    if c = '+' then
      if rest ≠ [] ∧ rest.all Char.isDigit then some (Int.ofNat (digitsToNat rest)) else none
    else if c = '-' then
      if rest ≠ [] ∧ rest.all Char.isDigit then some (-(Int.ofNat (digitsToNat rest))) else none
    else
      if (c :: rest).all Char.isDigit then some (Int.ofNat (digitsToNat (c :: rest))) else none

/-- `ttl, _ := strconv.Atoi(rr.GetRrTtl())`: the parse error is discarded,
and on error Go `Atoi` returns 0. -/
def goAtoi (s : String) : Int :=
  (parseGoInt s).getD 0

/-- Lookup in the `Host` map (modelled as an association list):
`h, found := Host[key]`. -/
def lookupHost : List (String × Endpoint) → String → Option Endpoint
  | [], _ => none
  | (k, e) :: rest, key => if k = key then some e else lookupHost rest key

/-- `h.Targets = append(h.Targets, value)`: the endpoint stored under `key`
gets one more target (the Go map holds a pointer, so the update is in
place). -/
def appendTargetHost : List (String × Endpoint) → String → String → List (String × Endpoint)
  | [], _, _ => []
  | (k, e) :: rest, key, value =>
    if k = key then (k, { e with targets := e.targets ++ [value] }) :: rest
    else (k, e) :: appendTargetHost rest key value

/-- One iteration of the record loop of `Records`, acting on the pair
(`Host` map, `endpoints` accumulator): an "A" record is merged into the
map under the key `fullName + ":" + type`; a "TXT" record and any other
record each append one endpoint. -/
def recordsStep (st : List (String × Endpoint) × List Endpoint) (rr : RrData) :
    List (String × Endpoint) × List Endpoint :=
  let host := st.1
  let eps := st.2
  let ttl := goAtoi rr.rrTtl
  if rr.rrType = "A" then
    let key := rr.rrFullName ++ ":" ++ rr.rrType
    match lookupHost host key with
    | some _ => (appendTargetHost host key rr.rrAllValue, eps)
    | none =>
      (host ++ [(key, NewEndpointWithTTL rr.rrFullName RecordTypeA ttl rr.rrAllValue)], eps)
  else if rr.rrType = "TXT" then
    (host, eps ++ [NewEndpointWithTTL rr.rrFullName RecordTypeTXT ttl rr.rrAllValue])
  else
    (host, eps ++ [NewEndpointWithTTL rr.rrFullName rr.rrType ttl rr.rrAllValue])

/-- Processing of one zone's record list in `Records`: run the record loop
with a fresh `Host` map, then flush the map after the directly emitted
endpoints. -/
def processZoneRecords (rrs : List RrData) : List Endpoint :=
  let st := rrs.foldl recordsStep ([], [])
  st.2 ++ st.1.map Prod.snd

/-- The zone loop of `Records`: fetch each zone's records, abort on a
failed fetch, otherwise accumulate the zone's endpoints. -/
def recordsZonesLoop (env : Env) : List ZoneAuth → List Endpoint → Except String (List Endpoint)
  | [], endpoints => Except.ok endpoints
  | zone :: rest, endpoints =>
    let records := env.dnsRrList zone.id
    if rrListFailed records then Except.error records.errMsg
    else recordsZonesLoop env rest (endpoints ++ processZoneRecords records.data)

/-- `Records`: list the zones (propagating a zone-list error), then run the
zone loop. -/
def Records (p : Provider) (env : Env) : Except String (List Endpoint) :=
  match Zones p env with
  | Except.error e => Except.error e
  | Except.ok zones => recordsZonesLoop env zones []

/-- One appliance write call, with the request fields of
`DnsRrDelete` / `DnsRrAdd` the provider fills in. -/
inductive ApiCall where
  | delete (rrName rrType rrValue1 : String)
  | create (rrName rrType : String) (rrTtl : Int) (rrValue1 : String)
deriving DecidableEq, Repr

/-- A log line of the write path (payloads only; the formatting of the Go
`logrus` messages is irrelevant to behaviour). -/
inductive LogEntry where
  | wouldDelete (recordType dnsName value : String)
  | deleting (recordType dnsName value : String)
  | deleteFailed (recordType dnsName value : String)
  | wouldCreate (recordType dnsName value : String)
  | creating (recordType dnsName value : String)
  | createFailed (recordType dnsName value : String)
deriving DecidableEq, Repr

/-- `int32(changes.RecordTTL)`: Go conversion of the 64-bit TTL to `int32`,
wrapping modulo 2^32 into the signed range. -/
def toInt32 (n : Int) : Int :=
  (n + 2 ^ 31) % 2 ^ 32 - 2 ^ 31

/-- The target loop of `DeleteChanges`: in dry-run log and continue;
otherwise issue the delete call and log a failure when the appliance
reply (`oracle`) carries a non-empty error, never aborting. -/
def deleteTargetsLoop (p : Provider) (oracle : ApiCall → String) (dnsName recordType : String) :
    List String → List ApiCall × List LogEntry
  | [] => ([], [])
  | value :: rest =>
    if p.dryRun then
      let r := deleteTargetsLoop p oracle dnsName recordType rest
      (r.1, LogEntry.wouldDelete recordType dnsName value :: r.2)
    else
      let call := ApiCall.delete dnsName recordType value
      let failLogs := if oracle call ≠ "" then [LogEntry.deleteFailed recordType dnsName value] else []
      let r := deleteTargetsLoop p oracle dnsName recordType rest
      (call :: r.1, LogEntry.deleting recordType dnsName value :: (failLogs ++ r.2))

/-- `DeleteChanges`: run the target loop; the function always returns
`nil` (`none`) as its error. -/
def DeleteChanges (p : Provider) (oracle : ApiCall → String) (changes : Endpoint) :
    List ApiCall × List LogEntry × Option String :=
  let r := deleteTargetsLoop p oracle changes.dnsName changes.recordType changes.targets
  (r.1, r.2, none)

/-- The target loop of `CreateChanges`: in dry-run log and continue;
otherwise issue the add call with the TTL narrowed to `int32` and log a
failure when the appliance reply carries a non-empty error. -/
def createTargetsLoop (p : Provider) (oracle : ApiCall → String)
    (dnsName recordType : String) (recordTTL : Int) :
    List String → List ApiCall × List LogEntry
  | [] => ([], [])
  | value :: rest =>
    if p.dryRun then
      let r := createTargetsLoop p oracle dnsName recordType recordTTL rest
      (r.1, LogEntry.wouldCreate recordType dnsName value :: r.2)
    else
      let call := ApiCall.create dnsName recordType (toInt32 recordTTL) value
      let failLogs := if oracle call ≠ "" then [LogEntry.createFailed recordType dnsName value] else []
      let r := createTargetsLoop p oracle dnsName recordType recordTTL rest
      (call :: r.1, LogEntry.creating recordType dnsName value :: (failLogs ++ r.2))

/-- `CreateChanges`: run the target loop; the function always returns
`nil` (`none`) as its error. -/
def CreateChanges (p : Provider) (oracle : ApiCall → String) (changes : Endpoint) :
    List ApiCall × List LogEntry × Option String :=
  let r := createTargetsLoop p oracle changes.dnsName changes.recordType changes.recordTTL changes.targets
  (r.1, r.2, none)

/-- The external-dns `plan.Changes` batch. -/
structure Changes where
  create : List Endpoint
  updateOld : List Endpoint
  updateNew : List Endpoint
  delete : List Endpoint

/-- One `for _, change := range list { if err := step(change); err != nil
{ return err } }` loop of `ApplyChanges`, threading the call and log
traces and returning early on a non-nil error. -/
def applyLoop (step : Endpoint → List ApiCall × List LogEntry × Option String) :
    List Endpoint → List ApiCall × List LogEntry × Option String
  | [] => ([], [], none)
  | change :: rest =>
    let r := step change
    match r.2.2 with
    | some msg => (r.1, r.2.1, some msg)
    | none =>
      let rs := applyLoop step rest
      (r.1 ++ rs.1, r.2.1 ++ rs.2.1, rs.2.2)

/-- `ApplyChanges`: the four loops in source order — `Delete` deletions,
`UpdateOld` deletions, `UpdateNew` creations, `Create` creations — each
propagating a non-nil error. -/
def ApplyChanges (p : Provider) (oracle : ApiCall → String) (changes : Changes) :
    List ApiCall × List LogEntry × Option String :=
  let r1 := applyLoop (DeleteChanges p oracle) changes.delete
  match r1.2.2 with
  | some msg => (r1.1, r1.2.1, some msg)
  | none =>
    let r2 := applyLoop (DeleteChanges p oracle) changes.updateOld
    match r2.2.2 with
    | some msg => (r1.1 ++ r2.1, r1.2.1 ++ r2.2.1, some msg)
    | none =>
      let r3 := applyLoop (CreateChanges p oracle) changes.updateNew
      match r3.2.2 with
      | some msg => (r1.1 ++ r2.1 ++ r3.1, r1.2.1 ++ r2.2.1 ++ r3.2.1, some msg)
      | none =>
        let r4 := applyLoop (CreateChanges p oracle) changes.create
        (r1.1 ++ r2.1 ++ r3.1 ++ r4.1, r1.2.1 ++ r2.2.1 ++ r3.2.1 ++ r4.2.1, r4.2.2)

/-- `AdjustEndpoints`: the identity transform. -/
def AdjustEndpoints (endpoints : List Endpoint) : List Endpoint :=
  endpoints

/-! Expected write-path traces, written from the specification: one delete
or create call per target value, none in dry-run. -/

/-- The delete calls the spec expects for one endpoint: one per target. -/
def endpointDeleteCalls (p : Provider) (e : Endpoint) : List ApiCall :=
  if p.dryRun then [] else e.targets.map (fun v => ApiCall.delete e.dnsName e.recordType v)

/-- The create calls the spec expects for one endpoint: one per target. -/
def endpointCreateCalls (p : Provider) (e : Endpoint) : List ApiCall :=
  if p.dryRun then []
  else e.targets.map (fun v => ApiCall.create e.dnsName e.recordType (toInt32 e.recordTTL) v)

/-- The delete calls the spec expects for a whole phase. -/
def phaseDeleteCalls (p : Provider) (l : List Endpoint) : List ApiCall :=
  (l.map (endpointDeleteCalls p)).flatten

/-- The create calls the spec expects for a whole phase. -/
def phaseCreateCalls (p : Provider) (l : List Endpoint) : List ApiCall :=
  (l.map (endpointCreateCalls p)).flatten

/-! Write-path lemmas. -/

theorem deleteTargetsLoop_calls (p : Provider) (oracle : ApiCall → String)
    (dnsName recordType : String) (vs : List String) :
    (deleteTargetsLoop p oracle dnsName recordType vs).1 =
      if p.dryRun then [] else vs.map (fun v => ApiCall.delete dnsName recordType v) := by
  induction vs with
  | nil => simp [deleteTargetsLoop]
  | cons v rest ih =>
    simp only [deleteTargetsLoop]
    by_cases h : p.dryRun <;> simp [h, ih]

theorem createTargetsLoop_calls (p : Provider) (oracle : ApiCall → String)
    (dnsName recordType : String) (recordTTL : Int) (vs : List String) :
    (createTargetsLoop p oracle dnsName recordType recordTTL vs).1 =
      if p.dryRun then []
      else vs.map (fun v => ApiCall.create dnsName recordType (toInt32 recordTTL) v) := by
  induction vs with
  | nil => simp [createTargetsLoop]
  | cons v rest ih =>
    simp only [createTargetsLoop]
    by_cases h : p.dryRun <;> simp [h, ih]

theorem DeleteChanges_calls (p : Provider) (oracle : ApiCall → String) (e : Endpoint) :
    (DeleteChanges p oracle e).1 = endpointDeleteCalls p e := by
  simp [DeleteChanges, endpointDeleteCalls, deleteTargetsLoop_calls]

theorem CreateChanges_calls (p : Provider) (oracle : ApiCall → String) (e : Endpoint) :
    (CreateChanges p oracle e).1 = endpointCreateCalls p e := by
  simp [CreateChanges, endpointCreateCalls, createTargetsLoop_calls]

theorem DeleteChanges_err (p : Provider) (oracle : ApiCall → String) (e : Endpoint) :
    (DeleteChanges p oracle e).2.2 = none := rfl

theorem CreateChanges_err (p : Provider) (oracle : ApiCall → String) (e : Endpoint) :
    (CreateChanges p oracle e).2.2 = none := rfl

theorem applyLoop_err (step : Endpoint → List ApiCall × List LogEntry × Option String)
    (hstep : ∀ e, (step e).2.2 = none) (l : List Endpoint) :
    (applyLoop step l).2.2 = none := by
  induction l with
  | nil => rfl
  | cons e rest ih =>
    simp only [applyLoop]
    rw [hstep e]
    simpa using ih

theorem applyLoop_calls (step : Endpoint → List ApiCall × List LogEntry × Option String)
    (hstep : ∀ e, (step e).2.2 = none) (l : List Endpoint) :
    (applyLoop step l).1 = (l.map (fun e => (step e).1)).flatten := by
  induction l with
  | nil => rfl
  | cons e rest ih =>
    simp only [applyLoop]
    rw [hstep e]
    simpa using ih

theorem ApplyChanges_unfold (p : Provider) (oracle : ApiCall → String) (ch : Changes) :
    ApplyChanges p oracle ch =
      ((applyLoop (DeleteChanges p oracle) ch.delete).1 ++
         (applyLoop (DeleteChanges p oracle) ch.updateOld).1 ++
         (applyLoop (CreateChanges p oracle) ch.updateNew).1 ++
         (applyLoop (CreateChanges p oracle) ch.create).1,
       (applyLoop (DeleteChanges p oracle) ch.delete).2.1 ++
         (applyLoop (DeleteChanges p oracle) ch.updateOld).2.1 ++
         (applyLoop (CreateChanges p oracle) ch.updateNew).2.1 ++
         (applyLoop (CreateChanges p oracle) ch.create).2.1,
       none) := by
  have h1 := applyLoop_err (DeleteChanges p oracle) (DeleteChanges_err p oracle) ch.delete
  have h2 := applyLoop_err (DeleteChanges p oracle) (DeleteChanges_err p oracle) ch.updateOld
  have h3 := applyLoop_err (CreateChanges p oracle) (CreateChanges_err p oracle) ch.updateNew
  have h4 := applyLoop_err (CreateChanges p oracle) (CreateChanges_err p oracle) ch.create
  simp only [ApplyChanges]
  rw [h1, h2, h3, h4]

theorem ApplyChanges_calls (p : Provider) (oracle : ApiCall → String) (ch : Changes) :
    (ApplyChanges p oracle ch).1 =
      phaseDeleteCalls p ch.delete ++ phaseDeleteCalls p ch.updateOld ++
        phaseCreateCalls p ch.updateNew ++ phaseCreateCalls p ch.create := by
  rw [ApplyChanges_unfold]
  simp only [phaseDeleteCalls, phaseCreateCalls,
    applyLoop_calls (DeleteChanges p oracle) (DeleteChanges_err p oracle),
    applyLoop_calls (CreateChanges p oracle) (CreateChanges_err p oracle)]
  simp [funext fun e => DeleteChanges_calls p oracle e, funext fun e => CreateChanges_calls p oracle e]

theorem ApplyChanges_err (p : Provider) (oracle : ApiCall → String) (ch : Changes) :
    (ApplyChanges p oracle ch).2.2 = none := by
  rw [ApplyChanges_unfold]

/-- Claim C3: whenever the appliance zone-list call reports failure
(non-empty error together with an unsuccessful payload), both `Zones` and
`Records` return that error and no result list. -/
theorem zones_records_fail_on_zone_list_error (p : Provider) (env : Env)
    (h : zoneListFailed env.dnsZoneList) :
    Zones p env = Except.error env.dnsZoneList.errMsg ∧
      Records p env = Except.error env.dnsZoneList.errMsg := by
  have hz : Zones p env = Except.error env.dnsZoneList.errMsg := by
    simp [Zones, h]
  refine ⟨hz, ?_⟩
  simp [Records, hz]

/-- Witness for C3. -/
theorem zones_records_fail_on_zone_list_error_witness :
    Zones ⟨fun _ => true, fun _ => true, false⟩
        ⟨⟨false, [], "boom"⟩, fun _ => ⟨true, [], ""⟩⟩ = Except.error "boom" ∧
      Records ⟨fun _ => true, fun _ => true, false⟩
        ⟨⟨false, [], "boom"⟩, fun _ => ⟨true, [], ""⟩⟩ = Except.error "boom" :=
  zones_records_fail_on_zone_list_error _ _ (by constructor <;> decide)

/-- Claim C4: an individual appliance delete or create failure never aborts
the batch and never propagates: `ApplyChanges` returns a nil error for
every appliance-reply oracle, and issues exactly the calls it would issue
if every reply succeeded (so it continues with the remaining targets of
the same endpoint and with all remaining endpoints). -/
theorem applyChanges_never_aborts (p : Provider) (oracle : ApiCall → String) (ch : Changes) :
    (ApplyChanges p oracle ch).2.2 = none ∧
      (ApplyChanges p oracle ch).1 = (ApplyChanges p (fun _ => "") ch).1 := by
  refine ⟨ApplyChanges_err p oracle ch, ?_⟩
  rw [ApplyChanges_calls, ApplyChanges_calls]

/-- Claim C5: `ApplyChanges` processes the four lists in the fixed order —
deletions of all `Delete` endpoints, then deletions of all `UpdateOld`
endpoints, then creations of all `UpdateNew` endpoints, then creations of
all `Create` endpoints. -/
theorem applyChanges_fixed_order (p : Provider) (oracle : ApiCall → String) (ch : Changes) :
    (ApplyChanges p oracle ch).1 =
      phaseDeleteCalls p ch.delete ++ phaseDeleteCalls p ch.updateOld ++
        phaseCreateCalls p ch.updateNew ++ phaseCreateCalls p ch.create :=
  ApplyChanges_calls p oracle ch

/-- Claim C6: outside dry-run, an endpoint with N targets produces exactly
N delete (resp. create) calls, one per target value, independently of the
outcomes the appliance reports; in particular a batch with
`Delete=[E1(targets=[v1,v2])]` issues exactly the two delete calls. -/
theorem one_call_per_target (p : Provider) (oracle oracle2 : ApiCall → String) (e : Endpoint)
    (h : p.dryRun = false) :
    (DeleteChanges p oracle e).1.length = e.targets.length ∧
      (CreateChanges p oracle e).1.length = e.targets.length ∧
      (DeleteChanges p oracle e).1 =
        e.targets.map (fun v => ApiCall.delete e.dnsName e.recordType v) ∧
      (CreateChanges p oracle e).1 =
        e.targets.map (fun v => ApiCall.create e.dnsName e.recordType (toInt32 e.recordTTL) v) ∧
      (DeleteChanges p oracle e).1 = (DeleteChanges p oracle2 e).1 ∧
      (ApplyChanges p oracle
          { create := [], updateOld := [], updateNew := [],
            delete := [{ dnsName := "e1", recordType := "A", recordTTL := 300,
                         targets := ["v1", "v2"] }] }).1 =
        [ApiCall.delete "e1" "A" "v1", ApiCall.delete "e1" "A" "v2"] := by
  have hd : (DeleteChanges p oracle e).1 =
      e.targets.map (fun v => ApiCall.delete e.dnsName e.recordType v) := by
    rw [DeleteChanges_calls]; simp [endpointDeleteCalls, h]
  have hc : (CreateChanges p oracle e).1 =
      e.targets.map (fun v => ApiCall.create e.dnsName e.recordType (toInt32 e.recordTTL) v) := by
    rw [CreateChanges_calls]; simp [endpointCreateCalls, h]
  have hd2 : (DeleteChanges p oracle2 e).1 =
      e.targets.map (fun v => ApiCall.delete e.dnsName e.recordType v) := by
    rw [DeleteChanges_calls]; simp [endpointDeleteCalls, h]
  refine ⟨by simp [hd], by simp [hc], hd, hc, by rw [hd, hd2], ?_⟩
  rw [ApplyChanges_calls]
  simp [phaseDeleteCalls, phaseCreateCalls, endpointDeleteCalls, h]

/-- Witness for C6. -/
theorem one_call_per_target_witness :
    ((⟨fun _ => true, fun _ => true, false⟩ : Provider).dryRun = false) ∧
      (DeleteChanges ⟨fun _ => true, fun _ => true, false⟩ (fun _ => "oops")
          ⟨"a.example.com", "A", 60, ["1.1.1.1", "2.2.2.2", "3.3.3.3"]⟩).1.length = 3 :=
  ⟨rfl, by
    have h := one_call_per_target ⟨fun _ => true, fun _ => true, false⟩
      (fun _ => "oops") (fun _ => "")
      ⟨"a.example.com", "A", 60, ["1.1.1.1", "2.2.2.2", "3.3.3.3"]⟩ rfl
    simpa using h.1⟩

/-- Claim C7: in dry-run mode `ApplyChanges` issues zero appliance calls on
any batch and still returns a nil error. -/
theorem dry_run_no_calls (p : Provider) (oracle : ApiCall → String) (ch : Changes)
    (h : p.dryRun = true) :
    (ApplyChanges p oracle ch).1 = [] ∧ (ApplyChanges p oracle ch).2.2 = none := by
  refine ⟨?_, ApplyChanges_err p oracle ch⟩
  rw [ApplyChanges_calls]
  simp [phaseDeleteCalls, phaseCreateCalls, endpointDeleteCalls, endpointCreateCalls, h,
    List.flatten_eq_nil_iff]

/-- Witness for C7: a non-empty batch in dry-run issues no call. -/
theorem dry_run_no_calls_witness :
    (ApplyChanges ⟨fun _ => true, fun _ => true, true⟩ (fun _ => "")
        { create := [⟨"a.example.com", "A", 300, ["1.1.1.1"]⟩],
          updateOld := [], updateNew := [],
          delete := [⟨"b.example.com", "TXT", 60, ["hello"]⟩] }).1 = [] ∧
      (ApplyChanges ⟨fun _ => true, fun _ => true, true⟩ (fun _ => "")
        { create := [⟨"a.example.com", "A", 300, ["1.1.1.1"]⟩],
          updateOld := [], updateNew := [],
          delete := [⟨"b.example.com", "TXT", 60, ["hello"]⟩] }).2.2 = none :=
  dry_run_no_calls _ _ _ rfl

/-! Read-path lemmas and claims. -/

theorem zonesLoop_mem (p : Provider) (l : List DnsZoneDataData) (za : ZoneAuth) :
    za ∈ zonesLoop p l ↔
      ∃ z ∈ l, p.domainFilter z.zoneName = true ∧ p.zoneIDFilter z.zoneId = true ∧
        za = NewZoneAuth z := by
  induction l with
  | nil => simp [zonesLoop]
  | cons zone rest ih =>
    simp only [zonesLoop]
    by_cases h1 : p.domainFilter zone.zoneName = false
    · rw [if_pos h1, ih]
      constructor
      · rintro ⟨z, hz, hf⟩; exact ⟨z, List.mem_cons_of_mem _ hz, hf⟩
      · rintro ⟨z, hz, hf⟩
        rcases List.mem_cons.mp hz with hz | hz
        · subst hz; rw [hf.1] at h1; simp at h1
        · exact ⟨z, hz, hf⟩
    · rw [if_neg h1]
      by_cases h2 : p.zoneIDFilter zone.zoneId = false
      · rw [if_pos h2, ih]
        constructor
        · rintro ⟨z, hz, hf⟩; exact ⟨z, List.mem_cons_of_mem _ hz, hf⟩
        · rintro ⟨z, hz, hf⟩
          rcases List.mem_cons.mp hz with hz | hz
          · subst hz; rw [hf.2.1] at h2; simp at h2
          · exact ⟨z, hz, hf⟩
      · rw [if_neg h2]
        simp only [List.mem_cons]
        rw [ih]
        constructor
        · rintro (hza | ⟨z, hz, hf⟩)
          · exact ⟨zone, Or.inl rfl, by simpa using h1, by simpa using h2, hza⟩
          · exact ⟨z, Or.inr hz, hf⟩
        · rintro ⟨z, hz | hz, hf⟩
          · subst hz; exact Or.inl hf.2.2
          · exact Or.inr ⟨z, hz, hf⟩

/-- The concrete zone list of the spec's `Zones` test property:
zones A (id 1) and B (id 2). -/
def zonesAB : Env :=
  { dnsZoneList := ⟨true, [⟨"A", "Master", "1"⟩, ⟨"B", "Master", "2"⟩], ""⟩,
    dnsRrList := fun _ => ⟨true, [], ""⟩ }

/-- A provider whose domain filter matches only the name "A" and whose
zone-ID filter matches everything. -/
def providerOnlyA : Provider :=
  { domainFilter := fun s => s == "A", zoneIDFilter := fun _ => true, dryRun := false }

/-- Claim C2: when the zone-list call succeeds, a zone appears in the
result of `Zones` iff its name passes the domain filter and its id passes
the zone-ID filter, and no error is produced; for zones {A (id 1),
B (id 2)} and a domain filter matching only "A", `Zones` returns exactly
`[ZoneAuth A 1]`. -/
theorem zones_filter_iff (p : Provider) (env : Env)
    (h : ¬ zoneListFailed env.dnsZoneList) :
    (∃ l, Zones p env = Except.ok l ∧
        ∀ z ∈ env.dnsZoneList.data,
          (NewZoneAuth z ∈ l ↔
            p.domainFilter z.zoneName = true ∧ p.zoneIDFilter z.zoneId = true)) ∧
      Zones providerOnlyA zonesAB = Except.ok [⟨"A", "Master", "1"⟩] := by
  constructor
  · refine ⟨zonesLoop p env.dnsZoneList.data, by simp [Zones, h], ?_⟩
    intro z hz
    rw [zonesLoop_mem]
    constructor
    · rintro ⟨z2, _, hd, hi, heq⟩
      have hname : z.zoneName = z2.zoneName := congrArg ZoneAuth.name heq
      have hid : z.zoneId = z2.zoneId := congrArg ZoneAuth.id heq
      exact ⟨by rw [hname]; exact hd, by rw [hid]; exact hi⟩
    · rintro ⟨hd, hi⟩
      exact ⟨z, hz, hd, hi, rfl⟩
  · rfl

/-- Witness for C2. -/
theorem zones_filter_iff_witness :
    (∃ l, Zones providerOnlyA zonesAB = Except.ok l ∧
        ∀ z ∈ zonesAB.dnsZoneList.data,
          (NewZoneAuth z ∈ l ↔
            providerOnlyA.domainFilter z.zoneName = true ∧
              providerOnlyA.zoneIDFilter z.zoneId = true)) ∧
      Zones providerOnlyA zonesAB = Except.ok [⟨"A", "Master", "1"⟩] :=
  zones_filter_iff providerOnlyA zonesAB (by decide)

theorem recordsZonesLoop_fail (env : Env) (zs : List ZoneAuth)
    (hfail : ∃ z ∈ zs, rrListFailed (env.dnsRrList z.id)) (acc : List Endpoint) :
    ∃ e, recordsZonesLoop env zs acc = Except.error e := by
  induction zs generalizing acc with
  | nil => simp at hfail
  | cons zone rest ih =>
    simp only [recordsZonesLoop]
    by_cases h : rrListFailed (env.dnsRrList zone.id)
    · exact ⟨(env.dnsRrList zone.id).errMsg, by simp [h]⟩
    · rcases hfail with ⟨z, hz, hf⟩
      rcases List.mem_cons.mp hz with hz | hz
      · exact absurd (hz ▸ hf) h
      · rcases ih ⟨z, hz, hf⟩ (acc ++ processZoneRecords (env.dnsRrList zone.id).data) with ⟨e, he⟩
        exact ⟨e, by simp [h, he]⟩

/-- Claim C8: if the record fetch for any zone in the zone list reports
failure, `Records` aborts and returns an error with no partial result
list. -/
theorem records_aborts_on_rr_failure (p : Provider) (env : Env) (zs : List ZoneAuth)
    (hz : Zones p env = Except.ok zs)
    (hfail : ∃ z ∈ zs, rrListFailed (env.dnsRrList z.id)) :
    ∃ e, Records p env = Except.error e := by
  rcases recordsZonesLoop_fail env zs hfail [] with ⟨e, he⟩
  exact ⟨e, by simp [Records, hz, he]⟩

/-- An environment in which zone 1 serves one record but the record fetch
for zone 2 fails. -/
def envSecondZoneFails : Env :=
  { dnsZoneList := ⟨true, [⟨"z1", "Master", "1"⟩, ⟨"z2", "Master", "2"⟩], ""⟩,
    dnsRrList := fun id =>
      if id = "2" then ⟨false, [], "rr fetch failed"⟩
      else ⟨true, [⟨"a.z1", "A", "300", "1.1.1.1"⟩], ""⟩ }

/-- A provider whose filters keep everything, not in dry-run. -/
def providerAll : Provider :=
  { domainFilter := fun _ => true, zoneIDFilter := fun _ => true, dryRun := false }

/-- Witness for C8: the first zone succeeds, the second fails, and the
whole `Records` call errors. -/
theorem records_aborts_on_rr_failure_witness :
    ∃ e, Records providerAll envSecondZoneFails = Except.error e :=
  records_aborts_on_rr_failure providerAll envSecondZoneFails
    [⟨"z1", "Master", "1"⟩, ⟨"z2", "Master", "2"⟩] rfl
    ⟨(⟨"z2", "Master", "2"⟩ : ZoneAuth), by decide, by decide⟩

theorem recordsZonesLoop_ok (env : Env) (zs : List ZoneAuth)
    (hok : ∀ z ∈ zs, ¬ rrListFailed (env.dnsRrList z.id)) (acc : List Endpoint) :
    recordsZonesLoop env zs acc =
      Except.ok (acc ++ (zs.map (fun z => processZoneRecords (env.dnsRrList z.id).data)).flatten) := by
  induction zs generalizing acc with
  | nil => simp [recordsZonesLoop]
  | cons zone rest ih =>
    have h1 : ¬ rrListFailed (env.dnsRrList zone.id) := hok zone (List.mem_cons_self _ _)
    simp only [recordsZonesLoop, h1, if_false, List.map_cons, List.flatten_cons]
    rw [ih (fun z hz => hok z (List.mem_cons_of_mem _ hz))]
    simp

/-- An environment with two zones (ids 1 and 2) that each serve one "A"
record with the same full name `a.example.com` but different values. -/
def envTwoZonesSameName : Env :=
  { dnsZoneList := ⟨true, [⟨"z1", "Master", "1"⟩, ⟨"z2", "Master", "2"⟩], ""⟩,
    dnsRrList := fun id =>
      if id = "2" then ⟨true, [⟨"a.example.com", "A", "300", "2.2.2.2"⟩], ""⟩
      else ⟨true, [⟨"a.example.com", "A", "300", "1.1.1.1"⟩], ""⟩ }

/-- Claim C9: the "A"-record deduplication map is per zone: `Records`
concatenates each zone's independently processed endpoint list, so two
"A" records sharing a full name but living in different zones come out as
two separate endpoints, never merged. -/
theorem a_dedup_scoped_per_zone (p : Provider) (env : Env) (zs : List ZoneAuth)
    (hz : Zones p env = Except.ok zs)
    (hok : ∀ z ∈ zs, ¬ rrListFailed (env.dnsRrList z.id)) :
    Records p env =
        Except.ok ((zs.map (fun z => processZoneRecords (env.dnsRrList z.id).data)).flatten) ∧
      Records providerAll envTwoZonesSameName =
        Except.ok [⟨"a.example.com", "A", 300, ["1.1.1.1"]⟩,
                   ⟨"a.example.com", "A", 300, ["2.2.2.2"]⟩] := by
  constructor
  · simp only [Records, hz]
    simpa using recordsZonesLoop_ok env zs hok []
  · rfl

/-- Witness for C9. -/
theorem a_dedup_scoped_per_zone_witness :
    Records providerAll envTwoZonesSameName =
        Except.ok
          (([(⟨"z1", "Master", "1"⟩ : ZoneAuth), ⟨"z2", "Master", "2"⟩].map
              (fun z => processZoneRecords (envTwoZonesSameName.dnsRrList z.id).data)).flatten) ∧
      Records providerAll envTwoZonesSameName =
        Except.ok [⟨"a.example.com", "A", 300, ["1.1.1.1"]⟩,
                   ⟨"a.example.com", "A", 300, ["2.2.2.2"]⟩] :=
  a_dedup_scoped_per_zone providerAll envTwoZonesSameName
    [⟨"z1", "Master", "1"⟩, ⟨"z2", "Master", "2"⟩] rfl (by decide)

theorem processZoneRecords_single (rr : RrData) :
    processZoneRecords [rr] =
      [⟨rr.rrFullName, rr.rrType, goAtoi rr.rrTtl, [rr.rrAllValue]⟩] := by
  by_cases hA : rr.rrType = "A"
  · simp [processZoneRecords, recordsStep, lookupHost, NewEndpointWithTTL, RecordTypeA, hA]
  · by_cases hT : rr.rrType = "TXT" <;>
      simp [processZoneRecords, recordsStep, NewEndpointWithTTL, RecordTypeTXT, hA, hT]

/-- An environment with a single zone (id 1) serving the given records. -/
def envOneZone (rrs : List RrData) : Env :=
  { dnsZoneList := ⟨true, [⟨"example.com", "Master", "1"⟩], ""⟩,
    dnsRrList := fun _ => ⟨true, rrs, ""⟩ }

/-- Claim C10: a resource record whose TTL string does not parse as an
integer does not make `Records` fail: the parse error is discarded,
`Atoi` yields 0, and the endpoint is still emitted with TTL 0. -/
theorem unparseable_ttl_gives_zero (rr : RrData) (h : parseGoInt rr.rrTtl = none) :
    goAtoi rr.rrTtl = 0 ∧
      processZoneRecords [rr] = [⟨rr.rrFullName, rr.rrType, 0, [rr.rrAllValue]⟩] ∧
      Records providerAll (envOneZone [rr]) =
        Except.ok [⟨rr.rrFullName, rr.rrType, 0, [rr.rrAllValue]⟩] := by
  have h0 : goAtoi rr.rrTtl = 0 := by simp [goAtoi, h]
  have h1 : processZoneRecords [rr] = [⟨rr.rrFullName, rr.rrType, 0, [rr.rrAllValue]⟩] := by
    rw [processZoneRecords_single, h0]
  refine ⟨h0, h1, ?_⟩
  have hz : Zones providerAll (envOneZone [rr]) =
      Except.ok [⟨"example.com", "Master", "1"⟩] := rfl
  have hfetch : (envOneZone [rr]).dnsRrList "1" = ⟨true, [rr], ""⟩ := rfl
  simp only [Records]
  rw [hz]
  simp only [recordsZonesLoop, hfetch]
  rw [if_neg (by simp [rrListFailed])]
  simp [recordsZonesLoop, h1]

/-- Witness for C10: the TTL string "garbage" parses to nothing and the
record still comes out with TTL 0. -/
theorem unparseable_ttl_gives_zero_witness :
    goAtoi "garbage" = 0 ∧
      processZoneRecords [⟨"a.example.com", "A", "garbage", "1.1.1.1"⟩] =
        [⟨"a.example.com", "A", 0, ["1.1.1.1"]⟩] ∧
      Records providerAll (envOneZone [⟨"a.example.com", "A", "garbage", "1.1.1.1"⟩]) =
        Except.ok [⟨"a.example.com", "A", 0, ["1.1.1.1"]⟩] :=
  unparseable_ttl_gives_zero ⟨"a.example.com", "A", "garbage", "1.1.1.1"⟩ (by decide)

/-! Spec-side description of the per-zone record mapping, written from the
specification's words (deduplicate "A" records by `(fullName, type)`,
first occurrence creates the endpoint, later occurrences append their
value; every other record yields exactly one endpoint), to be compared
with `processZoneRecords`. -/

/-- One "A" record folded into the accumulated endpoint list, following
the spec: if an endpoint with the record's `(fullName, type)` already
exists, its target list grows by the record's value; otherwise a new
endpoint with the record's TTL and one target is added. -/
def specAInsert : List Endpoint → RrData → List Endpoint
  | [], rr => [NewEndpointWithTTL rr.rrFullName rr.rrType (goAtoi rr.rrTtl) rr.rrAllValue]
  | e :: rest, rr =>
    if e.dnsName = rr.rrFullName ∧ e.recordType = rr.rrType then
      { e with targets := e.targets ++ [rr.rrAllValue] } :: rest
    else e :: specAInsert rest rr

/-- The endpoints the spec expects from the zone's "A" records. -/
def specAEndpoints (rrs : List RrData) : List Endpoint :=
  (rrs.filter (fun rr => rr.rrType == "A")).foldl specAInsert []

/-- The endpoints the spec expects from the zone's records that are not of
type "A": exactly one per record, with the record's TTL and single
value. -/
def specNonAEndpoints (rrs : List RrData) : List Endpoint :=
  (rrs.filter (fun rr => rr.rrType != "A")).map
    (fun rr => NewEndpointWithTTL rr.rrFullName rr.rrType (goAtoi rr.rrTtl) rr.rrAllValue)

/-- The action of the "A" branch of the record loop on the `Host` map
alone. -/
def hostStepA (host : List (String × Endpoint)) (rr : RrData) : List (String × Endpoint) :=
  match lookupHost host (rr.rrFullName ++ ":" ++ rr.rrType) with
  | some _ => appendTargetHost host (rr.rrFullName ++ ":" ++ rr.rrType) rr.rrAllValue
  | none => host ++ [(rr.rrFullName ++ ":" ++ rr.rrType,
      NewEndpointWithTTL rr.rrFullName RecordTypeA (goAtoi rr.rrTtl) rr.rrAllValue)]

/-- The `Host` association list that corresponds to an endpoint list: each
endpoint keyed by `dnsName + ":" + recordType`, as the code builds it. -/
def mirror (l : List Endpoint) : List (String × Endpoint) :=
  l.map (fun e => (e.dnsName ++ ":" ++ e.recordType, e))

theorem string_append_cancel (a b c : String) (h : a ++ c = b ++ c) : a = b := by
  apply String.ext
  have h2 := congrArg String.data h
  simp only [String.data_append] at h2
  exact List.append_cancel_right h2

theorem key_eq_iff (a b t : String) : a ++ ":" ++ t = b ++ ":" ++ t ↔ a = b := by
  constructor
  · intro h
    exact string_append_cancel a b ":" (string_append_cancel _ _ t h)
  · intro h; rw [h]

theorem recordsStep_A (host : List (String × Endpoint)) (eps : List Endpoint) (rr : RrData)
    (hA : rr.rrType = "A") :
    recordsStep (host, eps) rr = (hostStepA host rr, eps) := by
  simp only [recordsStep, hostStepA, hA]
  cases h : lookupHost host (rr.rrFullName ++ ":" ++ "A") <;> simp [h]

theorem recordsStep_nonA (host : List (String × Endpoint)) (eps : List Endpoint) (rr : RrData)
    (hA : rr.rrType ≠ "A") :
    recordsStep (host, eps) rr =
      (host, eps ++ [NewEndpointWithTTL rr.rrFullName rr.rrType (goAtoi rr.rrTtl) rr.rrAllValue]) := by
  by_cases hT : rr.rrType = "TXT" <;> simp [recordsStep, RecordTypeTXT, hA, hT]

theorem foldl_recordsStep_eps (rrs : List RrData) :
    ∀ host eps, (rrs.foldl recordsStep (host, eps)).2 = eps ++ specNonAEndpoints rrs := by
  induction rrs with
  | nil => intro host eps; simp [specNonAEndpoints]
  | cons rr rest ih =>
    intro host eps
    simp only [List.foldl_cons]
    by_cases hA : rr.rrType = "A"
    · rw [recordsStep_A host eps rr hA, ih]
      simp [specNonAEndpoints, List.filter_cons, hA]
    · rw [recordsStep_nonA host eps rr hA, ih]
      simp [specNonAEndpoints, List.filter_cons, hA]

theorem foldl_recordsStep_host (rrs : List RrData) :
    ∀ host eps, (rrs.foldl recordsStep (host, eps)).1 =
      (rrs.filter (fun rr => rr.rrType == "A")).foldl hostStepA host := by
  induction rrs with
  | nil => intro host eps; simp
  | cons rr rest ih =>
    intro host eps
    simp only [List.foldl_cons, List.filter_cons]
    by_cases hA : rr.rrType = "A"
    · rw [recordsStep_A host eps rr hA, ih]
      simp [hA]
    · rw [recordsStep_nonA host eps rr hA, ih]
      simp [hA]

theorem hostStepA_cons_ne (ke : String) (e : Endpoint) (l : List (String × Endpoint))
    (rr : RrData) (hne : ke ≠ rr.rrFullName ++ ":" ++ rr.rrType) :
    hostStepA ((ke, e) :: l) rr = (ke, e) :: hostStepA l rr := by
  simp only [hostStepA, lookupHost, if_neg hne]
  cases h : lookupHost l (rr.rrFullName ++ ":" ++ rr.rrType) <;>
    simp [h, appendTargetHost, if_neg hne]

theorem specAInsert_mirror (rr : RrData) (hA : rr.rrType = "A") :
    ∀ l : List Endpoint, (∀ e ∈ l, e.recordType = "A") →
      hostStepA (mirror l) rr = mirror (specAInsert l rr) := by
  intro l
  induction l with
  | nil =>
    intro _
    simp [hostStepA, mirror, specAInsert, lookupHost, NewEndpointWithTTL, RecordTypeA, hA]
  | cons e rest ih =>
    intro hl
    have he : e.recordType = "A" := hl e (List.mem_cons_self _ _)
    have hmc : mirror (e :: rest) = (e.dnsName ++ ":" ++ e.recordType, e) :: mirror rest := rfl
    by_cases hk : e.dnsName = rr.rrFullName
    · have hkey : e.dnsName ++ ":" ++ e.recordType = rr.rrFullName ++ ":" ++ rr.rrType := by
        rw [hk, he, hA]
      have hcond : e.dnsName = rr.rrFullName ∧ e.recordType = rr.rrType :=
        ⟨hk, he.trans hA.symm⟩
      rw [hmc]
      simp only [hostStepA, lookupHost, if_pos hkey, appendTargetHost]
      simp [specAInsert, hcond, mirror]
    · have hkeyne : e.dnsName ++ ":" ++ e.recordType ≠ rr.rrFullName ++ ":" ++ rr.rrType := by
        rw [he, hA]
        intro hcon
        exact hk ((key_eq_iff _ _ _).mp hcon)
      have hcond : ¬ (e.dnsName = rr.rrFullName ∧ e.recordType = rr.rrType) :=
        fun hc => hk hc.1
      rw [hmc, hostStepA_cons_ne _ _ _ _ hkeyne,
        ih (fun x hx => hl x (List.mem_cons_of_mem _ hx))]
      simp [specAInsert, hcond, mirror]

theorem specAInsert_types (rr : RrData) (hA : rr.rrType = "A") :
    ∀ l : List Endpoint, (∀ e ∈ l, e.recordType = "A") →
      ∀ e ∈ specAInsert l rr, e.recordType = "A" := by
  intro l
  induction l with
  | nil =>
    intro _ e he
    simp only [specAInsert, List.mem_singleton] at he
    subst he
    simpa [NewEndpointWithTTL] using hA
  | cons x rest ih =>
    intro hl e he
    simp only [specAInsert] at he
    by_cases hc : x.dnsName = rr.rrFullName ∧ x.recordType = rr.rrType
    · rw [if_pos hc] at he
      rcases List.mem_cons.mp he with he | he
      · subst he; exact hl x (List.mem_cons_self _ _)
      · exact hl e (List.mem_cons_of_mem _ he)
    · rw [if_neg hc] at he
      rcases List.mem_cons.mp he with he | he
      · rw [he]; exact hl x (List.mem_cons_self _ _)
      · exact ih (fun y hy => hl y (List.mem_cons_of_mem _ hy)) e he

theorem foldl_hostStepA_mirror (arecs : List RrData) :
    (∀ rr ∈ arecs, rr.rrType = "A") →
      ∀ l : List Endpoint, (∀ e ∈ l, e.recordType = "A") →
        arecs.foldl hostStepA (mirror l) = mirror (arecs.foldl specAInsert l) := by
  induction arecs with
  | nil => intro _ l _; simp
  | cons rr rest ih =>
    intro ha l hl
    have hA : rr.rrType = "A" := ha rr (List.mem_cons_self _ _)
    simp only [List.foldl_cons]
    rw [specAInsert_mirror rr hA l hl]
    exact ih (fun x hx => ha x (List.mem_cons_of_mem _ hx))
      (specAInsert l rr) (specAInsert_types rr hA l hl)

theorem mirror_map_snd (l : List Endpoint) : (mirror l).map Prod.snd = l := by
  induction l with
  | nil => rfl
  | cons e rest ih => simp only [mirror, List.map_cons] at ih ⊢; rw [ih]

theorem filter_A_types (rrs : List RrData) :
    ∀ rr ∈ rrs.filter (fun rr => rr.rrType == "A"), rr.rrType = "A" := by
  intro rr h
  have h2 := (List.mem_filter.mp h).2
  simpa using h2

/-- The per-zone record mapping of the code refines the spec's
description. -/
theorem processZoneRecords_eq (rrs : List RrData) :
    processZoneRecords rrs = specNonAEndpoints rrs ++ specAEndpoints rrs := by
  have hmirror : (rrs.filter (fun rr => rr.rrType == "A")).foldl hostStepA
      ([] : List (String × Endpoint)) =
      mirror ((rrs.filter (fun rr => rr.rrType == "A")).foldl specAInsert []) := by
    have h := foldl_hostStepA_mirror (rrs.filter (fun rr => rr.rrType == "A"))
      (filter_A_types rrs) [] (by simp)
    simpa [mirror] using h
  simp only [processZoneRecords]
  rw [foldl_recordsStep_eps rrs [] [], foldl_recordsStep_host rrs [] [], hmirror,
    mirror_map_snd]
  simp [specAEndpoints]

/-- The concrete record list of the spec's `Records` test property, in one
zone. -/
def envThreeRecords : Env :=
  envOneZone [⟨"a.example.com", "A", "300", "1.1.1.1"⟩,
              ⟨"a.example.com", "A", "300", "2.2.2.2"⟩,
              ⟨"b.example.com", "TXT", "60", "hello"⟩]

/-- Claim C1: per zone, `Records` deduplicates "A" records by
`(fullName, type)` — the first occurrence creates an endpoint with the
record's TTL and one target and later occurrences append their value —
while a "TXT" or any other record yields exactly one endpoint with its
TTL and single value; on the spec's three-record example this produces
the A endpoint with targets `["1.1.1.1", "2.2.2.2"]` and the TXT endpoint
with target `["hello"]`. -/
theorem records_merges_a_and_emits_others :
    (∀ rrs, processZoneRecords rrs = specNonAEndpoints rrs ++ specAEndpoints rrs) ∧
      Records providerAll envThreeRecords =
        Except.ok [⟨"b.example.com", "TXT", 60, ["hello"]⟩,
                   ⟨"a.example.com", "A", 300, ["1.1.1.1", "2.2.2.2"]⟩] :=
  ⟨processZoneRecords_eq, rfl⟩

end Efficientip
